import Mathlib

/-
Verification of the orchestration layer of the short-video-maker speech
services: the Piper TTS server (`piper_server.py`, `piper_server_simple.py`)
and the Faster-Whisper transcription server (`faster_whisper_server.py`).

Python byte strings are modelled as `List Nat` (each entry a byte value),
strings as `String`, floating-point values that the code only passes
through (never computes with) as `ℚ`, and opaque loaded-model handles as
`Nat`. Fallible operations return `Except`/`Option`.
-/

namespace ShortVideo

/-! ## WAV container encoder (piper_server.py lines 127-133)

The server builds a 44-byte RIFF/WAVE header with
`struct.pack('<4sI4s4sIHHIIHH4sI', ...)`. `packU16`/`packU32` model the
little-endian `H`/`I` fields; `struct.pack` raises `struct.error` when a
field value does not fit its width, which the embedding models by
returning `none`. -/

def packU16 (v : Nat) : List Nat :=
  [v % 256, v / 256 % 256]

def packU32 (v : Nat) : List Nat :=
  [v % 256, v / 256 % 256, v / 65536 % 256, v / 16777216 % 256]

/-- Byte values of the ASCII tag "RIFF". -/
def tagRIFF : List Nat := [82, 73, 70, 70]

/-- Byte values of the ASCII tag "WAVE". -/
def tagWAVE : List Nat := [87, 65, 86, 69]

/-- Byte values of the ASCII tag "fmt " (with trailing space). -/
def tagFMT : List Nat := [102, 109, 116, 32]

/-- Byte values of the ASCII tag "data". -/
def tagDATA : List Nat := [100, 97, 116, 97]

/-- The header produced by
`struct.pack('<4sI4s4sIHHIIHH4sI', b'RIFF', 36 + data_length, b'WAVE',
b'fmt ', 16, 1, channels, sample_rate, sample_rate * channels * 2,
2 * channels, 16, b'data', data_length)`; `none` models the
`struct.error` raised when a field value exceeds its width. -/
def wavHeader (dataLength sampleRate channels : Nat) : Option (List Nat) :=
  if 36 + dataLength < 4294967296 ∧ channels < 65536 ∧ sampleRate < 4294967296 ∧
      sampleRate * channels * 2 < 4294967296 ∧ 2 * channels < 65536 then
    some (tagRIFF ++ packU32 (36 + dataLength) ++ tagWAVE ++ tagFMT ++
      packU32 16 ++ packU16 1 ++ packU16 channels ++ packU32 sampleRate ++
      packU32 (sampleRate * channels * 2) ++ packU16 (2 * channels) ++
      packU16 16 ++ tagDATA ++ packU32 (dataLength))
  else none

/-- The full WAV byte stream: `wav_header + raw_audio_data`
(piper_server.py line 133). -/
def wavEncode (samples : List Nat) (sampleRate channels : Nat) : Option (List Nat) :=
  (wavHeader samples.length sampleRate channels).map (fun h => h ++ samples)

/-- Every field of a 44-byte WAV header, together with the bytes that
follow the header. -/
structure WavFields where
  riff : List Nat
  chunkSize : Nat
  wave : List Nat
  fmtTag : List Nat
  fmtSize : Nat
  audioFormat : Nat
  numChannels : Nat
  sampleRate : Nat
  byteRate : Nat
  blockAlign : Nat
  bitsPerSample : Nat
  dataTag : List Nat
  dataLength : Nat
  rest : List Nat
  deriving DecidableEq, Repr

/-- Parse a byte stream that starts with a 44-byte WAV header back into
its fields (little-endian), returning `none` when fewer than 44 bytes
are present. -/
def parseWavHeader (bs : List Nat) : Option WavFields :=
  match bs with
  | r0 :: r1 :: r2 :: r3 :: s0 :: s1 :: s2 :: s3 ::
    w0 :: w1 :: w2 :: w3 :: f0 :: f1 :: f2 :: f3 ::
    m0 :: m1 :: m2 :: m3 :: a0 :: a1 :: c0 :: c1 ::
    q0 :: q1 :: q2 :: q3 :: b0 :: b1 :: b2 :: b3 ::
    k0 :: k1 :: p0 :: p1 :: d0 :: d1 :: d2 :: d3 ::
    l0 :: l1 :: l2 :: l3 :: rest =>
    some
      { riff := [r0, r1, r2, r3]
        chunkSize := s0 + 256 * s1 + 65536 * s2 + 16777216 * s3
        wave := [w0, w1, w2, w3]
        fmtTag := [f0, f1, f2, f3]
        fmtSize := m0 + 256 * m1 + 65536 * m2 + 16777216 * m3
        audioFormat := a0 + 256 * a1
        numChannels := c0 + 256 * c1
        sampleRate := q0 + 256 * q1 + 65536 * q2 + 16777216 * q3
        byteRate := b0 + 256 * b1 + 65536 * b2 + 16777216 * b3
        blockAlign := k0 + 256 * k1
        bitsPerSample := p0 + 256 * p1
        dataTag := [d0, d1, d2, d3]
        dataLength := l0 + 256 * l1 + 65536 * l2 + 16777216 * l3
        rest := rest }
  | _ => none

theorem packU32_decode (v : Nat) (h : v < 4294967296) :
    v % 256 + 256 * (v / 256 % 256) + 65536 * (v / 65536 % 256) +
      16777216 * (v / 16777216 % 256) = v := by
  omega

theorem packU16_decode (v : Nat) (h : v < 65536) :
    v % 256 + 256 * (v / 256 % 256) = v := by
  omega

/-- C2: for every PCM buffer with samples of length `L`, sample rate `R > 0`
and channels `C > 0` (each field fitting its fixed header width), the WAV
encoder outputs exactly the 44-byte little-endian header
`RIFF, 36+L, WAVE, fmt , 16, 1, C, R, R*C*2, C*2, 16, data, L` followed
immediately by the sample bytes; parsing the header back recovers `R`, `C`
and `L` exactly, and the output is a deterministic function of the input. -/
theorem wav_encoder_layout_roundtrip (samples : List Nat) (R C : Nat)
    (hR : 0 < R) (hC : 0 < C)
    (h1 : 36 + samples.length < 4294967296) (h2 : C < 65536)
    (h3 : R < 4294967296) (h4 : R * C * 2 < 4294967296) (h5 : 2 * C < 65536) :
    ∃ out, wavEncode samples R C = some out ∧
      out = tagRIFF ++ packU32 (36 + samples.length) ++ tagWAVE ++ tagFMT ++
        packU32 16 ++ packU16 1 ++ packU16 C ++ packU32 R ++
        packU32 (R * C * 2) ++ packU16 (2 * C) ++ packU16 16 ++ tagDATA ++
        packU32 samples.length ++ samples ∧
      out.length = 44 + samples.length ∧
      parseWavHeader out = some
        { riff := tagRIFF, chunkSize := 36 + samples.length, wave := tagWAVE,
          fmtTag := tagFMT, fmtSize := 16, audioFormat := 1, numChannels := C,
          sampleRate := R, byteRate := R * C * 2, blockAlign := 2 * C,
          bitsPerSample := 16, dataTag := tagDATA, dataLength := samples.length,
          rest := samples } := by
  have hcond : 36 + samples.length < 4294967296 ∧ C < 65536 ∧ R < 4294967296 ∧
      R * C * 2 < 4294967296 ∧ 2 * C < 65536 := ⟨h1, h2, h3, h4, h5⟩
  refine ⟨_, ?_, rfl, ?_, ?_⟩
  · unfold wavEncode wavHeader
    rw [if_pos hcond]
    rfl
  · simp only [tagRIFF, tagWAVE, tagFMT, tagDATA, packU32, packU16,
      List.cons_append, List.nil_append, List.length_cons]
    omega
  · simp only [tagRIFF, tagWAVE, tagFMT, tagDATA, packU32, packU16,
      List.cons_append, List.nil_append]
    simp only [parseWavHeader, Option.some.injEq, WavFields.mk.injEq]
    repeat' apply And.intro
    all_goals first
      | trivial
      | omega

/-- The WAV-encoder theorem instantiated at the concrete buffer
`[1, 2]`, rate 22050, one channel. -/
theorem wav_encoder_layout_roundtrip_witness :
    ∃ out, wavEncode [1, 2] 22050 1 = some out ∧
      out = tagRIFF ++ packU32 (36 + [1, 2].length) ++ tagWAVE ++ tagFMT ++
        packU32 16 ++ packU16 1 ++ packU16 1 ++ packU32 22050 ++
        packU32 (22050 * 1 * 2) ++ packU16 (2 * 1) ++ packU16 16 ++ tagDATA ++
        packU32 [1, 2].length ++ [1, 2] ∧
      out.length = 44 + [1, 2].length ∧
      parseWavHeader out = some
        { riff := tagRIFF, chunkSize := 36 + [1, 2].length, wave := tagWAVE,
          fmtTag := tagFMT, fmtSize := 16, audioFormat := 1, numChannels := 1,
          sampleRate := 22050, byteRate := 22050 * 1 * 2, blockAlign := 2 * 1,
          bitsPerSample := 16, dataTag := tagDATA, dataLength := [1, 2].length,
          rest := [1, 2] } :=
  wav_encoder_layout_roundtrip [1, 2] 22050 1 (by decide) (by decide)
    (by decide) (by decide) (by decide) (by decide) (by decide)

/-! ## Exception-aware state monad for the Python control flow

`generate_audio` in piper_server.py uses `try/except TypeError`,
`try/finally` and a swallowed `except Exception: pass`; the embedding
threads an explicit state through an `Except`-style result, where
`Except.error e` is a propagating Python exception. Raising never rolls
back state, exactly as in Python. -/

inductive PyErr where
  | typeError
  | attributeError
  | other
  deriving DecidableEq, Repr

/-- A Python computation: takes a state, returns either a value or a
propagating exception, together with the updated state. -/
def PyM (σ α : Type) : Type := σ → Except PyErr α × σ

def pyPure {σ α : Type} (a : α) : PyM σ α := fun s => (Except.ok a, s)

def pyBind {σ α β : Type} (m : PyM σ α) (f : α → PyM σ β) : PyM σ β := fun s =>
  match m s with
  | (Except.ok a, s1) => f a s1
  | (Except.error e, s1) => (Except.error e, s1)

def pyRaise {σ α : Type} (e : PyErr) : PyM σ α := fun s => (Except.error e, s)

/-- Model of `try: body except E: handler`: the selector returns the
handler for the exception classes the `except` clause names and `none`
for exceptions that keep propagating. -/
def pyTryCatch {σ α : Type} (body : PyM σ α) (sel : PyErr → Option (PyM σ α)) :
    PyM σ α := fun s =>
  match body s with
  | (Except.ok a, s1) => (Except.ok a, s1)
  | (Except.error e, s1) =>
    match sel e with
    | some h => h s1
    | none => (Except.error e, s1)

/-- Model of `try: body finally: fin`: the finalizer runs on every exit,
and an exception raised by the finalizer replaces the in-flight result. -/
def pyTryFinally {σ α : Type} (body : PyM σ α) (fin : PyM σ Unit) :
    PyM σ α := fun s =>
  match body s with
  | (r, s1) =>
    match fin s1 with
    | (Except.ok _, s2) => (r, s2)
    | (Except.error e, s2) => (Except.error e, s2)

/-! ## Piper synthesis negotiator (piper_server.py lines 96-168)

An `AudioChunk` of the modern streaming API is modelled with `Option`
fields: `none` models a missing attribute (`hasattr` false). The
behavior of the external `PiperVoice` session is a parameter. -/

structure Chunk where
  audio_int16_bytes : Option (List Nat)
  sample_rate : Option Nat
  sample_channels : Option Nat
  deriving DecidableEq, Repr

/-- Result of the fold of piper_server.py lines 110-123:
accumulated `raw_audio_data`, the `sample_rate` and `channels`
variables, and the `count` of chunks seen. -/
structure ALoopResult where
  raw : List Nat
  rate : Nat
  channels : Nat
  count : Nat
  deriving DecidableEq, Repr

/-- The `for i, chunk in enumerate(audio_chunks)` loop (lines 114-123):
`count` is incremented for every chunk seen; a chunk with the PCM
accessor appends its bytes, and when it is the first chunk (`i == 0`)
and has a `sample_rate` attribute it sets the format (channels from
`getattr(chunk, 'sample_channels', 1)`); a chunk without the accessor
breaks the loop. -/
def loopA : List Chunk → Nat → List Nat → Nat → Nat → Nat → ALoopResult
  | [], _, raw, rate, ch, count => ⟨raw, rate, ch, count⟩
  | c :: rest, i, raw, rate, ch, count =>
    match c.audio_int16_bytes with
    | some bs =>
      if i = 0 then
        match c.sample_rate with
        | some r =>
          loopA rest (i + 1) (raw ++ bs) r (c.sample_channels.getD 1) (count + 1)
        | none => loopA rest (i + 1) (raw ++ bs) rate ch (count + 1)
      else loopA rest (i + 1) (raw ++ bs) rate ch (count + 1)
    | none => ⟨raw, rate, ch, count + 1⟩

/-- Behavior of the modern `self.voice.synthesize(text, **params)` call:
it may raise, return `None`, or return a finite chunk sequence. -/
inductive ModernOutcome where
  | raises (e : PyErr)
  | returnsNone
  | chunks (cs : List Chunk)
  deriving DecidableEq, Repr

/-- Behavior of one legacy `self.voice.synthesize(..., wav_writer, ...)`
call: either it writes complete WAV container bytes into the sink and
returns, or it raises. -/
inductive LegacyOutcome where
  | writes (wav : List Nat)
  | raises (e : PyErr)
  deriving DecidableEq, Repr

/-- Behavior of a loaded `PiperVoice` session for one request: the
modern chunk-streaming call, the legacy sink call with naturalness
parameters, and the legacy sink call with the text only. -/
structure PiperSession where
  modern : ModernOutcome
  legacyParams : LegacyOutcome
  legacyPlain : LegacyOutcome
  deriving DecidableEq, Repr

/-- Observable state of the Strategy B path: whether the temporary sink
file currently exists and its contents, plus instrumentation counters
(number of Strategy B entries, legacy calls with naturalness
parameters, legacy calls with text only). -/
structure NegState where
  tempExists : Bool
  tempContents : List Nat
  bInvocations : Nat
  legacyParamCalls : Nat
  legacyPlainCalls : Nat
  deriving DecidableEq, Repr

def initNegState : NegState := ⟨false, [], 0, 0, 0⟩

/-- Model of `tempfile.NamedTemporaryFile(suffix='.wav', delete=False)`
(line 139): creates the empty sink file. -/
def createTemp : PyM NegState Unit := fun s =>
  (Except.ok (), { s with tempExists := true, tempContents := [] })

/-- Instrumentation: records that the Strategy B (legacy sink-writer)
path was entered. -/
def enterB : PyM NegState Unit := fun s =>
  (Except.ok (), { s with bInvocations := s.bInvocations + 1 })

/-- One legacy synthesize call against the sink: on success the sink
holds the written WAV container bytes; on failure the raised exception
propagates. The flag records whether the call passed the naturalness
parameters. -/
def legacyCall (out : LegacyOutcome) (withParams : Bool) : PyM NegState Unit :=
  fun s =>
  let s1 := if withParams then { s with legacyParamCalls := s.legacyParamCalls + 1 }
            else { s with legacyPlainCalls := s.legacyPlainCalls + 1 }
  match out with
  | LegacyOutcome.writes wav => (Except.ok (), { s1 with tempContents := wav })
  | LegacyOutcome.raises e => (Except.error e, s1)

/-- Model of `open(temp_wav_path, 'rb'); f.read()` (lines 160-161). -/
def readTemp : PyM NegState (List Nat) := fun s =>
  if s.tempExists then (Except.ok s.tempContents, s)
  else (Except.error PyErr.other, s)

/-- Model of `os.unlink(temp_wav_path)` (line 166): raises when the file
does not exist. -/
def unlinkTemp : PyM NegState Unit := fun s =>
  if s.tempExists then (Except.ok (), { s with tempExists := false })
  else (Except.error PyErr.other, s)

/-- Strategy B (piper_server.py lines 136-168): create a temporary sink,
then inside `try ... finally os.unlink` run the legacy synthesize call
with naturalness parameters, retrying once with text only on
`TypeError`, and read the sink's bytes back. The `finally` clause
swallows any unlink failure (`except Exception: pass`); the
`wav_writer.close()` of the inner `finally` is a no-op in this model. -/
def strategyB (sess : PiperSession) : PyM NegState (List Nat) :=
  pyBind enterB (fun _ =>
  pyBind createTemp (fun _ =>
  pyTryFinally
    (pyBind
      (pyTryCatch (legacyCall sess.legacyParams true)
        (fun e => match e with
          | PyErr.typeError => some (legacyCall sess.legacyPlain false)
          | _ => none))
      (fun _ => readTemp))
    (pyTryCatch unlinkTemp (fun _ => some (pyPure ())))))

/-- Strategy A (piper_server.py lines 97-133): run the modern streaming
call, fold the chunks with `loopA` starting from the defaults
`sample_rate = 22050`, `channels = 1`, raise `TypeError` when no chunk
arrived or no PCM bytes accumulated, and otherwise wrap the PCM in a
WAV header. A `struct.error` from out-of-range header fields is a
non-TypeError exception (`PyErr.other`). -/
def strategyA (sess : PiperSession) : PyM NegState (List Nat) := fun s =>
  match sess.modern with
  | ModernOutcome.raises e => (Except.error e, s)
  | ModernOutcome.returnsNone => (Except.error PyErr.typeError, s)
  | ModernOutcome.chunks cs =>
    let r := loopA cs 0 [] 22050 1 0
    if r.count = 0 ∨ r.raw = [] then (Except.error PyErr.typeError, s)
    else
      match wavEncode r.raw r.rate r.channels with
      | some out => (Except.ok out, s)
      | none => (Except.error PyErr.other, s)

/-- The negotiator (lines 96-168): try Strategy A; on `TypeError` or
`AttributeError` fall back to Strategy B; other exceptions propagate. -/
def generateAudioSynth (sess : PiperSession) : PyM NegState (List Nat) :=
  pyTryCatch (strategyA sess)
    (fun e => match e with
      | PyErr.typeError => some (strategyB sess)
      | PyErr.attributeError => some (strategyB sess)
      | PyErr.other => none)

/-- The whole `generate_audio` body after the voice is loaded, including
the outer `except Exception: return None` (lines 170-174). -/
def generateAudio (sess : PiperSession) (s : NegState) :
    Option (List Nat) × NegState :=
  match generateAudioSynth sess s with
  | (Except.ok bs, s1) => (some bs, s1)
  | (Except.error _, s1) => (none, s1)

/-- The legacy-only `generate_audio` body of piper_server_simple.py
(lines 87-108): create a temporary sink, call the basic legacy API
inside `try ... finally os.unlink`, read the sink back. -/
def simpleLegacySynth (out : LegacyOutcome) : PyM NegState (List Nat) :=
  pyBind createTemp (fun _ =>
  pyTryFinally
    (pyBind (legacyCall out false) (fun _ => readTemp))
    (pyTryCatch unlinkTemp (fun _ => some (pyPure ()))))

/-! ## Piper voice cache (piper_server.py lines 83-92)

The handler stores the loaded voice in `self.voice`. The code's guard
is only `if self.voice is None`; the identifier of the request is never
compared against anything. `voiceId` is a ghost field recording which
identifier the cached handle was loaded from — the code never reads
it. -/

structure PiperCache where
  voice : Option Nat
  voiceId : Option String
  deriving DecidableEq, Repr

/-- The load portion of `generate_audio` (lines 83-92): when
`self.voice is None`, check the model file exists (returning `None`
without loading when it does not), then load; a load exception leaves
`self.voice` unassigned and is caught by the outer handler. Returns the
handle used (or `none`), the new cache state, and the number of load
attempts performed. -/
def piperAcquire (modelExists : String → Bool)
    (loader : String → Except Unit Nat) (st : PiperCache)
    (voiceModel : String) : Option Nat × PiperCache × Nat :=
  match st.voice with
  | some v => (some v, st, 0)
  | none =>
    if modelExists voiceModel then
      match loader voiceModel with
      | Except.ok h => (some h, ⟨some h, some voiceModel⟩, 1)
      | Except.error _ => (none, st, 1)
    else (none, st, 0)

/-! ## Faster-Whisper transcript assembler (faster_whisper_server.py
lines 119-157)

Times, probabilities and the other engine-produced floats are only
copied, never computed with, so they are modelled as `ℚ`. A raw word's
`probability` is `none` when the engine object lacks the attribute; a
raw segment's `words` is `none` when the attribute is missing or
`None` (both make `hasattr(segment, 'words') and segment.words`
falsy, as does an empty list). -/

structure RawWord where
  start : ℚ
  «end» : ℚ
  word : String
  probability : Option ℚ
  deriving DecidableEq, Repr

structure WordData where
  start : ℚ
  «end» : ℚ
  word : String
  probability : ℚ
  deriving DecidableEq, Repr

structure RawSegment where
  id : Int
  seek : Int
  start : ℚ
  «end» : ℚ
  text : String
  temperature : ℚ
  avg_logprob : ℚ
  compression_ratio : ℚ
  no_speech_prob : ℚ
  words : Option (List RawWord)
  deriving DecidableEq, Repr

structure SegmentData where
  id : Int
  seek : Int
  start : ℚ
  «end» : ℚ
  text : String
  tokens : List Int
  temperature : ℚ
  avg_logprob : ℚ
  compression_ratio : ℚ
  no_speech_prob : ℚ
  words : List WordData
  deriving DecidableEq, Repr

/-- One `word_data` dict (lines 145-150):
`probability` is `getattr(word, 'probability', 1.0)`. -/
def wordData (w : RawWord) : WordData :=
  { start := w.start, «end» := w.«end», word := w.word,
    probability := w.probability.getD 1 }

/-- One `segment_data` dict (lines 128-151): `text` is stripped,
`tokens` stays empty, and the word list is filled only when
`hasattr(segment, 'words') and segment.words` is truthy. -/
def segmentData (s : RawSegment) : SegmentData :=
  { id := s.id, seek := s.seek, start := s.start, «end» := s.«end»,
    text := s.text.trim, tokens := [], temperature := s.temperature,
    avg_logprob := s.avg_logprob, compression_ratio := s.compression_ratio,
    no_speech_prob := s.no_speech_prob,
    words :=
      match s.words with
      | some ws => if ws.isEmpty then [] else ws.map wordData
      | none => [] }

structure TranscriptionInfo where
  language : String
  language_probability : ℚ
  duration : ℚ
  deriving DecidableEq, Repr

structure TranscriptionResult where
  language : String
  language_probability : ℚ
  duration : ℚ
  segments : List SegmentData
  deriving DecidableEq, Repr

/-- The `for segment in segments` loop (lines 127-154), appending each
converted segment to `transcription_result["segments"]` in order. -/
def assembleLoop : List RawSegment → List SegmentData → List SegmentData
  | [], acc => acc
  | s :: rest, acc => assembleLoop rest (acc ++ [segmentData s])

/-- The transcript assembly (lines 119-157): the result dict built from
`info` with the segments accumulated by the loop. -/
def transcribeAssemble (info : TranscriptionInfo) (segs : List RawSegment) :
    TranscriptionResult :=
  { language := info.language,
    language_probability := info.language_probability,
    duration := info.duration,
    segments := assembleLoop segs [] }

/-! ## Faster-Whisper model cache and handler (faster_whisper_server.py
lines 35-162) -/

/-- The handler's cached model slot: `self.model` (opaque handle) and
`self.model_name`. -/
structure WhisperState where
  model : Option Nat
  model_name : Option String
  deriving DecidableEq, Repr

/-- Behavior of `self.model.transcribe(...)` for a given handle: either
a segment sequence plus info, or an exception. -/
inductive EngineOutcome where
  | ok (segs : List RawSegment) (info : TranscriptionInfo)
  | raises
  deriving DecidableEq, Repr

/-- The `transcribe_audio` method (lines 83-162): reload when
`self.model is None or self.model_name != model_size`; a load exception
skips both assignments and is caught by the outer `except`, which
returns `None`; after a successful load both `self.model` and
`self.model_name` are set before transcription runs. Returns the result
(`none` on any exception), the new cache state, and the number of load
attempts. -/
def transcribeAudio (loader : String → Except Unit Nat)
    (engine : Nat → EngineOutcome) (st : WhisperState) (modelSize : String) :
    Option TranscriptionResult × WhisperState × Nat :=
  if st.model = none ∨ st.model_name ≠ some modelSize then
    match loader modelSize with
    | Except.error _ => (none, st, 1)
    | Except.ok h =>
      match engine h with
      | EngineOutcome.raises => (none, ⟨some h, some modelSize⟩, 1)
      | EngineOutcome.ok segs info =>
        (some (transcribeAssemble info segs), ⟨some h, some modelSize⟩, 1)
  else
    match st.model with
    | some h =>
      match engine h with
      | EngineOutcome.raises => (none, st, 0)
      | EngineOutcome.ok segs info => (some (transcribeAssemble info segs), st, 0)
    | none => (none, st, 0)

inductive HttpResponse where
  | ok (result : TranscriptionResult)
  | err (code : Nat)
  deriving DecidableEq, Repr

/-- The `handle_transcribe` body after JSON decoding (lines 49-76):
`audio_path` defaults to `''` when the key is missing, and
`if not audio_path or not os.path.exists(audio_path)` sends a 400
before `transcribe_audio` ever runs; otherwise the transcription result
is served with 200 or, when it is `None`, a 500. -/
def handleTranscribe (fileExists : String → Bool)
    (loader : String → Except Unit Nat) (engine : Nat → EngineOutcome)
    (st : WhisperState) (audioPath modelSize : String) :
    HttpResponse × WhisperState × Nat :=
  if audioPath = "" ∨ fileExists audioPath = false then
    (HttpResponse.err 400, st, 0)
  else
    match transcribeAudio loader engine st modelSize with
    | (some r, st1, n) => (HttpResponse.ok r, st1, n)
    | (none, st1, n) => (HttpResponse.err 500, st1, n)

/-! ## Theorems -/

theorem assembleLoop_eq_map (segs : List RawSegment) (acc : List SegmentData) :
    assembleLoop segs acc = acc ++ segs.map segmentData := by
  induction segs generalizing acc with
  | nil => simp [assembleLoop]
  | cons s rest ih => simp [assembleLoop, ih]

/-- C6: for every sequence of recognized segments consumed by the
transcript assembler, the output segments list has the same length and
the same order as the input (never reordered, dropped or duplicated):
it is exactly the one-pass, in-order map of the conversion over the
input sequence. -/
theorem transcript_assembler_preserves_order (info : TranscriptionInfo)
    (segs : List RawSegment) :
    (transcribeAssemble info segs).segments = segs.map segmentData ∧
    (transcribeAssemble info segs).segments.length = segs.length ∧
    ∀ i, (transcribeAssemble info segs).segments.get? i =
      (segs.get? i).map segmentData := by
  have h : (transcribeAssemble info segs).segments = segs.map segmentData := by
    simp [transcribeAssemble, assembleLoop_eq_map]
  exact ⟨h, by simp [h], fun i => by simp [h]⟩

/-- C7: for every word of a segment processed by the transcript
assembler, the output word is the positional copy of the input word,
with probability 1 when the underlying word object omits the attribute
and the explicit probability value passed through unchanged. -/
theorem word_probability_defaulting (s : RawSegment) (l : List RawWord)
    (hl : s.words = some l) (i : Nat) (h : i < l.length) :
    (segmentData s).words.get? i = some (wordData (l.get ⟨i, h⟩)) ∧
    ((l.get ⟨i, h⟩).probability = none →
      (wordData (l.get ⟨i, h⟩)).probability = 1) ∧
    (∀ p, (l.get ⟨i, h⟩).probability = some p →
      (wordData (l.get ⟨i, h⟩)).probability = p) := by
  have hne : l.isEmpty = false := by
    cases l with
    | nil => simp at h
    | cons a t => simp
  refine ⟨?_, ?_, ?_⟩
  · have hw : (segmentData s).words = l.map wordData := by
      simp [segmentData, hl, hne]
    rw [hw, List.get?_map, List.get?_eq_get h]
    rfl
  · intro hp
    simp only [wordData]
    rw [hp]
    rfl
  · intro p hp
    simp only [wordData]
    rw [hp]
    rfl

/-- The word-probability theorem instantiated at a two-word segment
whose first word omits the probability attribute. -/
theorem word_probability_defaulting_witness :
    (segmentData ⟨1, 0, 0, 2, " hi ", 0, 0, 0, 0,
        some [⟨0, 1, "a", none⟩, ⟨1, 2, "b", some (83 / 100)⟩]⟩).words.get? 0 =
      some (wordData (([⟨0, 1, "a", none⟩, ⟨1, 2, "b", some (83 / 100)⟩] :
        List RawWord).get ⟨0, by decide⟩)) ∧
    ((([⟨0, 1, "a", none⟩, ⟨1, 2, "b", some (83 / 100)⟩] :
        List RawWord).get ⟨0, by decide⟩).probability = none →
      (wordData (([⟨0, 1, "a", none⟩, ⟨1, 2, "b", some (83 / 100)⟩] :
        List RawWord).get ⟨0, by decide⟩)).probability = 1) ∧
    (∀ p, (([⟨0, 1, "a", none⟩, ⟨1, 2, "b", some (83 / 100)⟩] :
        List RawWord).get ⟨0, by decide⟩).probability = some p →
      (wordData (([⟨0, 1, "a", none⟩, ⟨1, 2, "b", some (83 / 100)⟩] :
        List RawWord).get ⟨0, by decide⟩)).probability = p) :=
  word_probability_defaulting _ _ rfl 0 (by decide)

/-- C8: a /transcribe request whose audio path is missing or empty, or
names a file that does not exist, is answered 400, the model cache slot
is unchanged and no load is attempted. -/
theorem missing_audio_yields_400_no_load (fe : String → Bool)
    (loader : String → Except Unit Nat) (engine : Nat → EngineOutcome)
    (st : WhisperState) (audioPath modelSize : String)
    (h : audioPath = "" ∨ fe audioPath = false) :
    handleTranscribe fe loader engine st audioPath modelSize =
      (HttpResponse.err 400, st, 0) := by
  unfold handleTranscribe
  rw [if_pos h]

/-- The 400-response theorem instantiated at a nonexistent audio path. -/
theorem missing_audio_yields_400_no_load_witness :
    handleTranscribe (fun _ => false) (fun _ => Except.ok 0)
      (fun _ => EngineOutcome.raises) ⟨none, none⟩ "missing.wav" "large-v3" =
      (HttpResponse.err 400, ⟨none, none⟩, 0) :=
  missing_audio_yields_400_no_load _ _ _ _ _ _ (Or.inr rfl)

/-- C9: an acquire whose model load fails leaves the cache slot exactly
as it was (no partial install, both for the recognition and for the
synthesis cache), and a subsequent request against a working loader and
engine is still served. -/
theorem failed_load_leaves_cache_unchanged :
    (∀ (loader : String → Except Unit Nat) (engine : Nat → EngineOutcome)
       (st : WhisperState) (ident : String),
       loader ident = Except.error () →
         (transcribeAudio loader engine st ident).2.1 = st) ∧
    (∀ (loader : String → Except Unit Nat) (engine : Nat → EngineOutcome)
       (st : WhisperState) (ident : String),
       st.model_name ≠ some ident → loader ident = Except.error () →
         (transcribeAudio loader engine st ident).1 = none) ∧
    (∀ (exs : String → Bool) (loader : String → Except Unit Nat)
       (st : PiperCache) (vm : String),
       loader vm = Except.error () →
         (piperAcquire exs loader st vm).2.1 = st) ∧
    (∀ (st : WhisperState) (ident : String) (h : Nat) (segs : List RawSegment)
       (inf : TranscriptionInfo) (loader : String → Except Unit Nat)
       (engine : Nat → EngineOutcome),
       loader ident = Except.ok h →
       (∀ m, engine m = EngineOutcome.ok segs inf) →
         (transcribeAudio loader engine st ident).1 =
           some (transcribeAssemble inf segs)) := by
  refine ⟨?_, ?_, ?_, ?_⟩
  · intro loader engine st ident hfail
    unfold transcribeAudio
    by_cases hg : st.model = none ∨ st.model_name ≠ some ident
    · rw [if_pos hg, hfail]
    · rw [if_neg hg]
      cases hmm : st.model with
      | none => rfl
      | some m => cases hem : engine m <;> simp [hem]
  · intro loader engine st ident hne hfail
    unfold transcribeAudio
    rw [if_pos (Or.inr hne), hfail]
  · intro exs loader st vm hfail
    unfold piperAcquire
    cases st.voice with
    | some v => rfl
    | none =>
      by_cases he : exs vm = true
      · simp [he, hfail]
      · simp [he]
  · intro st ident h segs inf loader engine hok heng
    unfold transcribeAudio
    by_cases hg : st.model = none ∨ st.model_name ≠ some ident
    · rw [if_pos hg]
      simp [hok, heng]
    · rw [if_neg hg]
      push_neg at hg
      obtain ⟨hm, _⟩ := hg
      cases hmm : st.model with
      | none => exact absurd hmm hm
      | some m => simp [heng]

/-- The failed-load theorem instantiated at a failing loader over a
populated recognition slot, a failing loader over an empty synthesis
slot, and a subsequent successful request. -/
theorem failed_load_leaves_cache_unchanged_witness :
    (transcribeAudio (fun _ => Except.error ()) (fun _ => EngineOutcome.raises)
      ⟨some 3, some "old"⟩ "new").2.1 = ⟨some 3, some "old"⟩ ∧
    (transcribeAudio (fun _ => Except.error ()) (fun _ => EngineOutcome.raises)
      ⟨some 3, some "old"⟩ "new").1 = none ∧
    (piperAcquire (fun _ => true) (fun _ => Except.error ())
      ⟨none, none⟩ "voice").2.1 = ⟨none, none⟩ ∧
    (transcribeAudio (fun _ => Except.ok 5)
        (fun _ => EngineOutcome.ok [] ⟨"tr", 1, 0⟩)
        ⟨some 3, some "old"⟩ "new").1 =
      some (transcribeAssemble ⟨"tr", 1, 0⟩ []) :=
  ⟨failed_load_leaves_cache_unchanged.1 _ _ _ "new" rfl,
   failed_load_leaves_cache_unchanged.2.1 _ _ _ "new" (by decide) rfl,
   failed_load_leaves_cache_unchanged.2.2.1 _ _ _ "voice" rfl,
   failed_load_leaves_cache_unchanged.2.2.2 _ "new" 5 [] ⟨"tr", 1, 0⟩ _ _ rfl
     (fun _ => rfl)⟩

/-- C1 counterexample: the synthesis cache, with a voice already loaded
for identifier "A", acquires identifier "B" without performing any load
and without replacing the slot — the claim's "a different identifier
performs exactly one new load and replaces the slot" fails for the
synthesis cache. -/
theorem synthesis_cache_ignores_identifier :
    piperAcquire (fun _ => true) (fun _ => Except.ok 99)
      ⟨some 7, some "A"⟩ "B" = (some 7, ⟨some 7, some "A"⟩, 0) ∧
    ("A" : String) ≠ "B" := by
  exact ⟨rfl, by decide⟩

/-- C1 (amended): the recognition cache keys on the model identifier —
acquire against the cached identifier performs no load and leaves the
slot unchanged, a different (or no) cached identifier performs exactly
one load attempt and on success installs the new handle and identifier,
and two consecutive recognition requests with the same identifier
trigger at most one load; the synthesis cache instead loads only when
its slot is empty — with a cached voice it performs no load and returns
the cached handle unchanged regardless of the requested identifier, and
with an empty slot and a present artifact it performs exactly one
load. -/
theorem session_cache_policy :
    (∀ (loader : String → Except Unit Nat) (engine : Nat → EngineOutcome)
       (st : WhisperState) (ident : String) (h : Nat),
       st.model = some h → st.model_name = some ident →
         (transcribeAudio loader engine st ident).2.1 = st ∧
         (transcribeAudio loader engine st ident).2.2 = 0) ∧
    (∀ (loader : String → Except Unit Nat) (engine : Nat → EngineOutcome)
       (st : WhisperState) (ident : String),
       st.model_name ≠ some ident →
         (transcribeAudio loader engine st ident).2.2 = 1 ∧
         ∀ h, loader ident = Except.ok h →
           (transcribeAudio loader engine st ident).2.1 =
             ⟨some h, some ident⟩) ∧
    (∀ (loader : String → Except Unit Nat) (engine : Nat → EngineOutcome)
       (st : WhisperState) (ident : String) (h : Nat),
       loader ident = Except.ok h →
         (transcribeAudio loader engine st ident).2.2 +
           (transcribeAudio loader engine
             ((transcribeAudio loader engine st ident).2.1) ident).2.2 ≤ 1) ∧
    (∀ (exs : String → Bool) (loader : String → Except Unit Nat)
       (st : PiperCache) (vm : String) (v : Nat),
       st.voice = some v →
         piperAcquire exs loader st vm = (some v, st, 0)) ∧
    (∀ (exs : String → Bool) (loader : String → Except Unit Nat)
       (st : PiperCache) (vm : String) (h : Nat),
       st.voice = none → exs vm = true → loader vm = Except.ok h →
         piperAcquire exs loader st vm = (some h, ⟨some h, some vm⟩, 1)) := by
  have hsame : ∀ (loader : String → Except Unit Nat)
      (engine : Nat → EngineOutcome) (st : WhisperState) (ident : String)
      (h : Nat), st.model = some h → st.model_name = some ident →
      (transcribeAudio loader engine st ident).2.1 = st ∧
      (transcribeAudio loader engine st ident).2.2 = 0 := by
    intro loader engine st ident h hm hn
    have hg : ¬ (st.model = none ∨ st.model_name ≠ some ident) := by
      simp [hm, hn]
    unfold transcribeAudio
    rw [if_neg hg, hm]
    cases hE : engine h <;> simp [hE]
  have hdiff : ∀ (loader : String → Except Unit Nat)
      (engine : Nat → EngineOutcome) (st : WhisperState) (ident : String),
      st.model_name ≠ some ident →
      (transcribeAudio loader engine st ident).2.2 = 1 ∧
      ∀ h, loader ident = Except.ok h →
        (transcribeAudio loader engine st ident).2.1 = ⟨some h, some ident⟩ := by
    intro loader engine st ident hn
    have hg : st.model = none ∨ st.model_name ≠ some ident := Or.inr hn
    constructor
    · unfold transcribeAudio
      rw [if_pos hg]
      cases hL : loader ident with
      | error e => rfl
      | ok h => cases hE : engine h <;> simp [hE]
    · intro h hok
      unfold transcribeAudio
      rw [if_pos hg, hok]
      cases hE : engine h <;> simp [hE]
  refine ⟨hsame, hdiff, ?_, ?_, ?_⟩
  · intro loader engine st ident h hok
    by_cases hg : st.model = none ∨ st.model_name ≠ some ident
    · have h1 : (transcribeAudio loader engine st ident).2.1 =
          ⟨some h, some ident⟩ := by
        unfold transcribeAudio
        rw [if_pos hg, hok]
        cases hE : engine h <;> simp [hE]
      have h2 := (hsame loader engine ⟨some h, some ident⟩ ident h rfl rfl).2
      rw [h1, h2]
      have h3 : (transcribeAudio loader engine st ident).2.2 = 1 := by
        unfold transcribeAudio
        rw [if_pos hg, hok]
        cases hE : engine h <;> simp [hE]
      omega
    · push_neg at hg
      obtain ⟨hm, hn⟩ := hg
      cases hmm : st.model with
      | none => exact absurd hmm hm
      | some m =>
        have h1 := hsame loader engine st ident m hmm hn
        rw [h1.1, h1.2]
        omega
  · intro exs loader st vm v hv
    unfold piperAcquire
    rw [hv]
  · intro exs loader st vm h hv he hok
    unfold piperAcquire
    rw [hv]
    simp [he, hok]

/-- The session-cache theorem instantiated: a cached-identifier hit, a
different-identifier miss, two consecutive same-identifier requests,
a synthesis-cache hit, and a synthesis-cache load into an empty slot. -/
theorem session_cache_policy_witness :
    ((transcribeAudio (fun _ => Except.ok 5) (fun _ => EngineOutcome.raises)
        ⟨some 3, some "m"⟩ "m").2.1 = ⟨some 3, some "m"⟩ ∧
      (transcribeAudio (fun _ => Except.ok 5) (fun _ => EngineOutcome.raises)
        ⟨some 3, some "m"⟩ "m").2.2 = 0) ∧
    (transcribeAudio (fun _ => Except.ok 5) (fun _ => EngineOutcome.raises)
      ⟨some 3, some "m"⟩ "n").2.2 = 1 ∧
    (transcribeAudio (fun _ => Except.ok 5) (fun _ => EngineOutcome.raises)
        ⟨none, none⟩ "m").2.2 +
      (transcribeAudio (fun _ => Except.ok 5) (fun _ => EngineOutcome.raises)
        ((transcribeAudio (fun _ => Except.ok 5)
          (fun _ => EngineOutcome.raises) ⟨none, none⟩ "m").2.1) "m").2.2 ≤ 1 ∧
    piperAcquire (fun _ => true) (fun _ => Except.ok 9)
      ⟨some 4, some "v"⟩ "v" = (some 4, ⟨some 4, some "v"⟩, 0) ∧
    piperAcquire (fun _ => true) (fun _ => Except.ok 9) ⟨none, none⟩ "v" =
      (some 9, ⟨some 9, some "v"⟩, 1) :=
  ⟨session_cache_policy.1 _ _ _ "m" 3 rfl rfl,
   (session_cache_policy.2.1 _ _ _ "n" (by decide)).1,
   session_cache_policy.2.2.1 _ _ _ "m" 5 rfl,
   session_cache_policy.2.2.2.1 _ _ _ "v" 4 rfl,
   session_cache_policy.2.2.2.2 _ _ _ "v" 9 rfl rfl rfl⟩

theorem strategyB_state (sess : PiperSession) (s : NegState) :
    ((strategyB sess) s).2.bInvocations = s.bInvocations + 1 ∧
    ((strategyB sess) s).2.tempExists = false := by
  unfold strategyB enterB createTemp pyBind pyTryFinally pyTryCatch legacyCall
    readTemp unlinkTemp pyPure
  cases hp : sess.legacyParams with
  | writes w => simp
  | raises e =>
    cases e with
    | typeError => cases hq : sess.legacyPlain <;> simp
    | attributeError => simp
    | other => simp

theorem simpleLegacySynth_state (out : LegacyOutcome) (s : NegState) :
    ((simpleLegacySynth out) s).2.tempExists = false := by
  unfold simpleLegacySynth createTemp pyBind pyTryFinally pyTryCatch legacyCall
    readTemp unlinkTemp pyPure
  cases out <;> simp

/-- C5: on every exit path of the legacy sink-writer synthesis path —
success, a synthesis call raising, or the read-back raising — the
temporary sink file has been deleted by the time the path returns, in
piper_server.py's Strategy B and in piper_server_simple.py's
generate_audio alike. -/
theorem temp_sink_always_deleted :
    (∀ (sess : PiperSession) (s : NegState),
       ((strategyB sess) s).2.tempExists = false) ∧
    (∀ (out : LegacyOutcome) (s : NegState),
       ((simpleLegacySynth out) s).2.tempExists = false) :=
  ⟨fun sess s => (strategyB_state sess s).2, simpleLegacySynth_state⟩

/-- C4: when the legacy call with naturalness parameters raises
`TypeError`, Strategy B retries exactly once against the same sink with
the text only (one parameterized call, one plain call), and the
returned bytes are exactly the WAV container the session wrote into the
sink, read back verbatim rather than re-encoded. -/
theorem legacy_param_rejection_retries_once (sess : PiperSession)
    (s : NegState) (w : List Nat)
    (hp : sess.legacyParams = LegacyOutcome.raises PyErr.typeError)
    (hq : sess.legacyPlain = LegacyOutcome.writes w) :
    ((strategyB sess) s).1 = Except.ok w ∧
    ((strategyB sess) s).2.legacyParamCalls = s.legacyParamCalls + 1 ∧
    ((strategyB sess) s).2.legacyPlainCalls = s.legacyPlainCalls + 1 ∧
    ((strategyB sess) s).2.tempContents = w := by
  unfold strategyB enterB createTemp pyBind pyTryFinally pyTryCatch legacyCall
    readTemp unlinkTemp pyPure
  rw [hp, hq]
  simp

/-- The Strategy B retry theorem instantiated at a session that rejects
the naturalness parameters and then writes the container `[82, 73]`. -/
theorem legacy_param_rejection_retries_once_witness :
    ((strategyB ⟨ModernOutcome.returnsNone,
        LegacyOutcome.raises PyErr.typeError,
        LegacyOutcome.writes [82, 73]⟩) initNegState).1 = Except.ok [82, 73] ∧
    ((strategyB ⟨ModernOutcome.returnsNone,
        LegacyOutcome.raises PyErr.typeError,
        LegacyOutcome.writes [82, 73]⟩) initNegState).2.legacyParamCalls =
      initNegState.legacyParamCalls + 1 ∧
    ((strategyB ⟨ModernOutcome.returnsNone,
        LegacyOutcome.raises PyErr.typeError,
        LegacyOutcome.writes [82, 73]⟩) initNegState).2.legacyPlainCalls =
      initNegState.legacyPlainCalls + 1 ∧
    ((strategyB ⟨ModernOutcome.returnsNone,
        LegacyOutcome.raises PyErr.typeError,
        LegacyOutcome.writes [82, 73]⟩) initNegState).2.tempContents =
      [82, 73] :=
  legacy_param_rejection_retries_once _ initNegState [82, 73] rfl rfl

theorem loopA_raw_empty (pre : List Chunk) (c : Chunk) (post : List Chunk)
    (i rate ch count : Nat) (hc : c.audio_int16_bytes = none)
    (hpre : ∀ x ∈ pre, x.audio_int16_bytes = some []) :
    (loopA (pre ++ c :: post) i [] rate ch count).raw = [] := by
  induction pre generalizing i rate ch count with
  | nil => simp [loopA, hc]
  | cons x rest ih =>
    have hx : x.audio_int16_bytes = some [] := hpre x (by simp)
    have hrest : ∀ y ∈ rest, y.audio_int16_bytes = some [] := by
      intro y hy
      exact hpre y (by simp [hy])
    simp only [List.cons_append, loopA, hx]
    by_cases hi : i = 0
    · subst hi
      cases hr : x.sample_rate with
      | some r =>
        simpa using ih 1 r (x.sample_channels.getD 1) (count + 1) hrest
      | none => simpa using ih 1 rate ch (count + 1) hrest
    · rw [if_neg hi]
      simpa using ih (i + 1) rate ch (count + 1) hrest

/-- C3 counterexample: with a first chunk carrying nonempty PCM bytes
and a second chunk lacking the PCM accessor, the negotiator returns
Strategy A's partial output and Strategy B is never invoked — the
claim's "some chunk lacks the PCM-bytes accessor implies Strategy A is
abandoned and Strategy B invoked" fails on the code. -/
theorem strategyA_returns_partial_output :
    (generateAudio ⟨ModernOutcome.chunks
        [⟨some [1, 2], some 22050, none⟩, ⟨none, none, none⟩],
      LegacyOutcome.writes [9], LegacyOutcome.writes [9]⟩ initNegState).1 ≠
      none ∧
    (generateAudio ⟨ModernOutcome.chunks
        [⟨some [1, 2], some 22050, none⟩, ⟨none, none, none⟩],
      LegacyOutcome.writes [9], LegacyOutcome.writes [9]⟩
        initNegState).2.bInvocations = 0 := by
  constructor
  · decide
  · decide

/-- C3 (amended): when the modern call yields an empty chunk sequence,
or a chunk lacking the PCM-bytes accessor is preceded only by chunks
whose PCM payloads are empty (so no PCM has accumulated), Strategy A is
abandoned and Strategy B is invoked exactly once before the call can
fail. -/
theorem empty_pcm_falls_back_to_strategyB (sess : PiperSession)
    (cs : List Chunk) (s : NegState)
    (hm : sess.modern = ModernOutcome.chunks cs)
    (hfb : cs = [] ∨ ∃ pre c post, cs = pre ++ c :: post ∧
      c.audio_int16_bytes = none ∧ ∀ x ∈ pre, x.audio_int16_bytes = some []) :
    (generateAudio sess s).2.bInvocations = s.bInvocations + 1 := by
  have hA : strategyA sess s = (Except.error PyErr.typeError, s) := by
    unfold strategyA
    rw [hm]
    rcases hfb with hnil | ⟨pre, c, post, hcs, hc, hpre⟩
    · subst hnil
      rfl
    · subst hcs
      have hraw := loopA_raw_empty pre c post 0 22050 1 0 hc hpre
      simp [hraw]
  have h2 : (generateAudio sess s).2 = ((strategyB sess) s).2 := by
    unfold generateAudio generateAudioSynth pyTryCatch
    rw [hA]
    cases hsb : (strategyB sess) s with
    | mk r s2 => cases r <;> simp [hsb]
  rw [h2]
  exact (strategyB_state sess s).1

/-- The fallback theorem instantiated at a modern call returning an
empty chunk sequence. -/
theorem empty_pcm_falls_back_to_strategyB_witness :
    (generateAudio ⟨ModernOutcome.chunks [], LegacyOutcome.writes [3],
      LegacyOutcome.writes [3]⟩ initNegState).2.bInvocations =
      initNegState.bInvocations + 1 :=
  empty_pcm_falls_back_to_strategyB _ [] initNegState rfl (Or.inl rfl)

theorem loopA_format_fixed (cs : List Chunk) (i : Nat) (raw : List Nat)
    (rate ch count : Nat) (hi : i ≠ 0) :
    (loopA cs i raw rate ch count).rate = rate ∧
    (loopA cs i raw rate ch count).channels = ch := by
  induction cs generalizing i raw count with
  | nil => simp [loopA]
  | cons c rest ih =>
    cases hb : c.audio_int16_bytes with
    | some bs =>
      simp only [loopA, hb, if_neg hi]
      exact ih (i + 1) (raw ++ bs) (count + 1) (Nat.succ_ne_zero i)
    | none => simp [loopA, hb]

/-- C10: when the first chunk of Strategy A has PCM bytes, the format
the WAV header is built from is decided by that first chunk alone:
no `sample_rate` attribute gives rate 22050 and channels 1; a
`sample_rate` without `sample_channels` gives that rate and channels 1;
and the rate and channel count of every later chunk are ignored. -/
theorem first_chunk_decides_format (c : Chunk) (rest : List Chunk)
    (bs : List Nat) (hb : c.audio_int16_bytes = some bs) :
    (c.sample_rate = none →
      (loopA (c :: rest) 0 [] 22050 1 0).rate = 22050 ∧
      (loopA (c :: rest) 0 [] 22050 1 0).channels = 1) ∧
    (∀ r, c.sample_rate = some r →
      (loopA (c :: rest) 0 [] 22050 1 0).rate = r ∧
      (c.sample_channels = none →
        (loopA (c :: rest) 0 [] 22050 1 0).channels = 1)) ∧
    (∀ rest2, (loopA (c :: rest) 0 [] 22050 1 0).rate =
        (loopA (c :: rest2) 0 [] 22050 1 0).rate ∧
      (loopA (c :: rest) 0 [] 22050 1 0).channels =
        (loopA (c :: rest2) 0 [] 22050 1 0).channels) := by
  have hstep1 : ∀ (rcs : List Chunk) (r : Nat), c.sample_rate = some r →
      loopA (c :: rcs) 0 [] 22050 1 0 =
        loopA rcs 1 bs r (c.sample_channels.getD 1) 1 := by
    intro rcs r hr
    simp [loopA, hb, hr]
  have hstep2 : ∀ (rcs : List Chunk), c.sample_rate = none →
      loopA (c :: rcs) 0 [] 22050 1 0 = loopA rcs 1 bs 22050 1 1 := by
    intro rcs hr
    simp [loopA, hb, hr]
  refine ⟨?_, ?_, ?_⟩
  · intro hr
    rw [hstep2 rest hr]
    exact loopA_format_fixed rest 1 bs 22050 1 1 one_ne_zero
  · intro r hr
    rw [hstep1 rest r hr]
    have hfix := loopA_format_fixed rest 1 bs r (c.sample_channels.getD 1) 1
      one_ne_zero
    refine ⟨hfix.1, ?_⟩
    intro hch
    rw [hfix.2, hch]
    rfl
  · intro rest2
    cases hr : c.sample_rate with
    | some r =>
      rw [hstep1 rest r hr, hstep1 rest2 r hr,
        (loopA_format_fixed rest 1 bs r (c.sample_channels.getD 1) 1
          one_ne_zero).1,
        (loopA_format_fixed rest2 1 bs r (c.sample_channels.getD 1) 1
          one_ne_zero).1,
        (loopA_format_fixed rest 1 bs r (c.sample_channels.getD 1) 1
          one_ne_zero).2,
        (loopA_format_fixed rest2 1 bs r (c.sample_channels.getD 1) 1
          one_ne_zero).2]
      exact ⟨rfl, rfl⟩
    | none =>
      rw [hstep2 rest hr, hstep2 rest2 hr,
        (loopA_format_fixed rest 1 bs 22050 1 1 one_ne_zero).1,
        (loopA_format_fixed rest2 1 bs 22050 1 1 one_ne_zero).1,
        (loopA_format_fixed rest 1 bs 22050 1 1 one_ne_zero).2,
        (loopA_format_fixed rest2 1 bs 22050 1 1 one_ne_zero).2]
      exact ⟨rfl, rfl⟩

/-- The first-chunk-format theorem instantiated at a first chunk with
bytes but no sample-rate attribute and a later chunk carrying a
conflicting rate. -/
theorem first_chunk_decides_format_witness :
    ((⟨some [5], none, none⟩ : Chunk).sample_rate = none →
      (loopA [⟨some [5], none, none⟩, ⟨some [6], some 44100, some 2⟩]
        0 [] 22050 1 0).rate = 22050 ∧
      (loopA [⟨some [5], none, none⟩, ⟨some [6], some 44100, some 2⟩]
        0 [] 22050 1 0).channels = 1) ∧
    (∀ r, (⟨some [5], none, none⟩ : Chunk).sample_rate = some r →
      (loopA [⟨some [5], none, none⟩, ⟨some [6], some 44100, some 2⟩]
        0 [] 22050 1 0).rate = r ∧
      ((⟨some [5], none, none⟩ : Chunk).sample_channels = none →
        (loopA [⟨some [5], none, none⟩, ⟨some [6], some 44100, some 2⟩]
          0 [] 22050 1 0).channels = 1)) ∧
    (∀ rest2, (loopA [⟨some [5], none, none⟩, ⟨some [6], some 44100, some 2⟩]
        0 [] 22050 1 0).rate =
        (loopA (⟨some [5], none, none⟩ :: rest2) 0 [] 22050 1 0).rate ∧
      (loopA [⟨some [5], none, none⟩, ⟨some [6], some 44100, some 2⟩]
        0 [] 22050 1 0).channels =
        (loopA (⟨some [5], none, none⟩ :: rest2) 0 [] 22050 1 0).channels) :=
  first_chunk_decides_format ⟨some [5], none, none⟩
    [⟨some [6], some 44100, some 2⟩] [5] rfl

end ShortVideo
